import Mathlib

/-!
Verification development for the-neighbor, a small Express backend that
accepts community-member form submissions (POST /submitMember), optionally
transforms an attached photo through an external image-generation
collaborator, stores images in an external object store, inserts the member
record into an external relational store, and lists members
(GET /community).

The repository holds three revisions of the same server:
* `part_001` — the latest revision: firstname/lastname/email validation,
  original-image upload, activity-parameterised prompt, eight-column listing;
* `server.js` — an intermediate revision: name/email schema, random path
  suffix, and no required-field validation at all;
* `part_002` — the earliest revision: name/email validation, no inner
  image catch.

The design document assumes the superset schema of the latest revision, so
the pipeline below is the shallow embedding of `part_001`; the `server.js`
handler is embedded separately (its missing validation is settled against
it).  External collaborators (OpenAI, the object store, the relational
store) are modelled as oracles giving each call's outcome; console logging
is not modelled.
-/

namespace Neighbor

/-! ## String normalisation of form fields -/

/-- JS `String.prototype.trim`: strip leading and trailing whitespace
(ASCII model). -/
def jsTrim (s : String) : String :=
  String.mk (((s.data.dropWhile Char.isWhitespace).reverse.dropWhile Char.isWhitespace).reverse)

/-- JS `String.prototype.toLowerCase` (ASCII model). -/
def jsToLower (s : String) : String :=
  String.mk (s.data.map Char.toLower)

/-- Field normalisation shared by the handlers: `field?.trim()` followed by
the JS truthiness test (`!s` is true for an absent field and for the empty
string), or equivalently `field?.trim() || null` as written for the optional
fields in part_001 lines 169-170.  An absent field stays absent and a field
that is empty after trimming becomes null. -/
def normField (o : Option String) : Option String :=
  match o with
  | none => none
  | some s =>
    let t := jsTrim s
    if t = "" then none else some t

/-- Membership in the character class `[a-z0-9]` of the slug regex used by
every revision (`replace(/[^a-z0-9]+/g, "-")`). -/
def isLowerAlnum (c : Char) : Bool :=
  (('a' ≤ c && c ≤ 'z') || ('0' ≤ c && c ≤ '9'))

/-- Helper of `collapseNonAlnum`: the flag records whether the scan is
inside a non-alphanumeric run whose dash was already emitted. -/
def collapseAux : Bool → List Char → List Char
  | _, [] => []
  | inRun, c :: cs =>
    if isLowerAlnum c then c :: collapseAux false cs
    else if inRun then collapseAux true cs
    else '-' :: collapseAux true cs

/-- The global regex replacement `replace(/[^a-z0-9]+/g, "-")`: every
maximal run of characters outside `[a-z0-9]` is collapsed to one dash. -/
def collapseNonAlnum (l : List Char) : List Char :=
  collapseAux false l

/-- Slug of part_001 lines 214-216:
`` `${firstname}-${lastname}`.toLowerCase().replace(/[^a-z0-9]+/g, "-") ``
(ASCII model of `toLowerCase`). -/
def safeNameSlug (firstname lastname : String) : String :=
  String.mk (collapseNonAlnum ((jsToLower (firstname ++ "-" ++ lastname)).data))

/-! ## Decimal interpolation of `Date.now()` -/

/-- Least-significant-first decimal digits of `n`, by structural recursion
on a fuel argument. -/
def decDigitsAux : Nat → Nat → List Nat
  | _, 0 => []
  | 0, _ + 1 => []
  | fuel + 1, n + 1 => ((n + 1) % 10) :: decDigitsAux fuel ((n + 1) / 10)

/-- Least-significant-first decimal digits of `n`. -/
def decDigits (n : Nat) : List Nat :=
  decDigitsAux n n

/-- Value of a least-significant-first decimal digit list. -/
def undigits : List Nat → Nat
  | [] => 0
  | d :: ds => d + 10 * undigits ds

theorem undigits_decDigitsAux : ∀ fuel n, n ≤ fuel → undigits (decDigitsAux fuel n) = n
  | fuel, 0, _ => by cases fuel <;> rfl
  | 0, n + 1, h => absurd h (by omega)
  | fuel + 1, n + 1, h => by
    have hdiv : (n + 1) / 10 ≤ fuel := by
      have h2 : (n + 1) / 10 < n + 1 := Nat.div_lt_self (by omega) (by omega)
      omega
    show ((n + 1) % 10) + 10 * undigits (decDigitsAux fuel ((n + 1) / 10)) = n + 1
    rw [undigits_decDigitsAux fuel ((n + 1) / 10) hdiv]
    omega

theorem undigits_decDigits (n : Nat) : undigits (decDigits n) = n :=
  undigits_decDigitsAux n n (Nat.le_refl n)

theorem decDigits_inj {m n : Nat} (h : decDigits m = decDigits n) : m = n := by
  have hm := undigits_decDigits m
  have hn := undigits_decDigits n
  rw [h, hn] at hm
  exact hm.symm

theorem decDigitsAux_lt : ∀ fuel n d, d ∈ decDigitsAux fuel n → d < 10
  | fuel, 0, d, hd => by cases fuel <;> simp [decDigitsAux] at hd
  | 0, _ + 1, d, hd => by simp [decDigitsAux] at hd
  | fuel + 1, n + 1, d, hd => by
    simp only [decDigitsAux, List.mem_cons] at hd
    cases hd with
    | inl h => rw [h]; exact Nat.mod_lt _ (by omega)
    | inr h => exact decDigitsAux_lt fuel _ d h

theorem decDigits_lt (n : Nat) : ∀ d ∈ decDigits n, d < 10 :=
  fun d hd => decDigitsAux_lt n n d hd

/-- Decimal digit characters of `n`, most significant first: the character
sequence that the template interpolation `${Date.now()}` produces for a
natural number. -/
def decChars (n : Nat) : List Char :=
  if n = 0 then ['0'] else ((decDigits n).map Nat.digitChar).reverse

/-- Decimal string of a natural number, as interpolated into the storage
paths. -/
def decRepr (n : Nat) : String :=
  String.mk (decChars n)

theorem digitChar_isDigit {d : Nat} (hd : d < 10) : (Nat.digitChar d).isDigit = true := by
  interval_cases d <;> decide

theorem digitChar_inj_of_lt {d₁ d₂ : Nat} (h₁ : d₁ < 10) (h₂ : d₂ < 10)
    (h : Nat.digitChar d₁ = Nat.digitChar d₂) : d₁ = d₂ := by
  interval_cases d₁ <;> interval_cases d₂ <;> first | rfl | (exfalso; exact absurd h (by decide))

theorem map_digitChar_inj : ∀ {l₁ l₂ : List Nat}, (∀ d ∈ l₁, d < 10) → (∀ d ∈ l₂, d < 10) →
    l₁.map Nat.digitChar = l₂.map Nat.digitChar → l₁ = l₂
  | [], [], _, _, _ => rfl
  | [], _ :: _, _, _, h => by simp at h
  | _ :: _, [], _, _, h => by simp at h
  | d₁ :: l₁, d₂ :: l₂, hb₁, hb₂, h => by
    simp only [List.map_cons, List.cons.injEq] at h
    have hd := digitChar_inj_of_lt (hb₁ d₁ (by simp)) (hb₂ d₂ (by simp)) h.1
    have hl := map_digitChar_inj (fun d hd => hb₁ d (by simp [hd]))
      (fun d hd => hb₂ d (by simp [hd])) h.2
    rw [hd, hl]

theorem decChars_all_digits (n : Nat) : ∀ c ∈ decChars n, c.isDigit = true := by
  intro c hc
  unfold decChars at hc
  by_cases hn : n = 0
  · simp [hn] at hc
    simp [hc]
  · simp only [hn, if_false, List.mem_reverse, List.mem_map] at hc
    obtain ⟨d, hd, rfl⟩ := hc
    exact digitChar_isDigit (decDigits_lt n d hd)

theorem map_digitChar_eq_zero_char {l : List Nat} (hb : ∀ d ∈ l, d < 10)
    (h : l.map Nat.digitChar = ['0']) : undigits l = 0 := by
  have hlen : (l.map Nat.digitChar).length = 1 := by rw [h]; rfl
  rw [List.length_map] at hlen
  obtain ⟨d, hd⟩ := List.length_eq_one.mp hlen
  rw [hd] at h
  simp only [List.map_cons, List.map_nil, List.cons.injEq, and_true] at h
  have hd0 : d = 0 := digitChar_inj_of_lt (hb d (by rw [hd]; simp)) (by norm_num) (by simpa using h)
  rw [hd, hd0]
  rfl

theorem decChars_inj {m n : Nat} (h : decChars m = decChars n) : m = n := by
  unfold decChars at h
  by_cases hm : m = 0 <;> by_cases hn : n = 0
  · rw [hm, hn]
  · exfalso
    simp only [hm, if_pos rfl, if_neg hn] at h
    have h' : (decDigits n).map Nat.digitChar = ['0'] := by
      have := congrArg List.reverse h
      simpa using this.symm
    have h0 := map_digitChar_eq_zero_char (decDigits_lt n) h'
    rw [undigits_decDigits n] at h0
    exact hn h0
  · exfalso
    simp only [hn, if_pos rfl, if_neg hm] at h
    have h' : (decDigits m).map Nat.digitChar = ['0'] := by
      have := congrArg List.reverse h
      simpa using this
    have h0 := map_digitChar_eq_zero_char (decDigits_lt m) h'
    rw [undigits_decDigits m] at h0
    exact hm h0
  · simp only [if_neg hm, if_neg hn] at h
    have h' := List.reverse_injective h
    exact decDigits_inj (map_digitChar_inj (decDigits_lt m) (decDigits_lt n) h')

/-! ## Storage paths (part_001 lines 218 and 270) -/

/-- Path of the unmodified uploaded photo, part_001 line 218:
`` `original_image_url/${Date.now()}-${safeNameSlug}.png` ``. -/
def originalFilePath (now : Nat) (slug : String) : String :=
  "original_image_url/" ++ decRepr now ++ "-" ++ slug ++ ".png"

/-- Path of the generated image, part_001 line 270:
`` `community/${Date.now()}-${safeNameSlug}.png` ``. -/
def communityFilePath (now : Nat) (slug : String) : String :=
  "community/" ++ decRepr now ++ "-" ++ slug ++ ".png"

theorem takeWhile_all_append {p : Char → Bool} :
    ∀ {l : List Char}, (∀ c ∈ l, p c = true) → ∀ {x : Char}, p x = false → ∀ (r : List Char),
    List.takeWhile p (l ++ x :: r) = l
  | [], _, x, hx, r => by simp [List.takeWhile_cons, hx]
  | c :: l, hl, x, hx, r => by
    have hc : p c = true := hl c (by simp)
    simp only [List.cons_append, List.takeWhile_cons, hc, if_true]
    rw [takeWhile_all_append (fun d hd => hl d (by simp [hd])) hx r]

theorem string_append_data (a b : String) : (a ++ b).data = a.data ++ b.data := rfl

/-- Two token-then-slug paths under the same fixed path segment coincide only
when the interpolated tokens coincide. -/
theorem token_path_inj (pre slug : String) {t₁ t₂ : Nat}
    (h : pre ++ decRepr t₁ ++ "-" ++ slug ++ ".png" = pre ++ decRepr t₂ ++ "-" ++ slug ++ ".png") :
    t₁ = t₂ := by
  have hdata := congrArg String.data h
  simp only [string_append_data, List.append_assoc] at hdata
  have htail := List.append_cancel_left hdata
  have htail' : decChars t₁ ++ '-' :: (slug.data ++ ['.', 'p', 'n', 'g']) =
      decChars t₂ ++ '-' :: (slug.data ++ ['.', 'p', 'n', 'g']) := by
    simpa [decRepr] using htail
  have hex := congrArg (List.takeWhile (fun c => c.isDigit)) htail'
  rw [takeWhile_all_append (decChars_all_digits t₁) (by decide) _,
      takeWhile_all_append (decChars_all_digits t₂) (by decide) _] at hex
  exact decChars_inj hex

theorem collapseAux_chars :
    ∀ (b : Bool) (l : List Char), ∀ c ∈ collapseAux b l, c = '-' ∨ isLowerAlnum c = true
  | _, [] => by intro c hc; simp [collapseAux] at hc
  | b, c :: cs => by
    intro d hd
    unfold collapseAux at hd
    by_cases hc : isLowerAlnum c
    · simp only [hc, if_true] at hd
      cases hd with
      | head => exact Or.inr hc
      | tail _ h => exact collapseAux_chars false cs d h
    · simp only [hc, if_false] at hd
      cases b with
      | true => exact collapseAux_chars true cs d (by simpa using hd)
      | false =>
        simp only [Bool.false_eq_true, if_false] at hd
        cases hd with
        | head => exact Or.inl rfl
        | tail _ h => exact collapseAux_chars true cs d h

/-- Every character that `collapseNonAlnum` emits is a dash or a lowercase
alphanumeric. -/
theorem collapseNonAlnum_chars (l : List Char) :
    ∀ c ∈ collapseNonAlnum l, c = '-' ∨ isLowerAlnum c = true :=
  collapseAux_chars false l

/-! ## Prompt construction

`getPrompt` of part_001 lines 119-139 and of server.js lines 25-33.  The JS
backslash-newline pairs inside the literals are line continuations: the
newline is elided and the indentation of the following line is kept, which
is why the segments below begin with the spaces they do.  `!activity` is
true both for an absent argument and for the empty string. -/

/-- Baseline template of part_001 lines 121-133, with the line continuations
resolved. -/
def basePrompt : String :=
  "Using the provided photo as reference, create an original baby character for the comic strip " ++
  "  \x27Peanuts\x27. They are standing up (from hair to toe in frame), no background, and they should not have facial hair. Leave clear margin around the character\x27s silhouette, with at least 20 pixels from the highest-point of their hair, and 20 below the lowest point of their feet. Make sure that their skin color is solid " ++
  "      COMPOSITION RULES (CRITICAL):" ++
  "- Full body visible with generous empty space around the character" ++
  "- Character appears small-to-medium scale in the canvas" ++
  "- Clear space above the head and below the feet" ++
  "- Do not zoom in" ++
  "- Do not crop any part of the character" ++
  "- Character centered with visible breathing room on all sides" ++
  "STYLE RULES:" ++
  "- Solid opaque skin color" ++
  "- Clean cartoon shading" ++
  "- No facial hair"

/-- Fixed part of the extended template of part_001 lines 136-137 before the
interpolated activity. -/
def extPromptPre : String :=
  "Using the provided photo as reference, create an original baby character for the comic strip \x27Peanuts\x27. They are " ++
  "  standing up (from head to toe in frame), with no background, and they should not have facial hair. They should clearly be doing the following activity: "

/-- Fixed part of the extended template of part_001 line 137 after the
interpolated activity. -/
def extPromptSuf : String :=
  ". Leave clear margin around the character\x27s silhouette (including top of hair and bottom of feet)."

/-- Prompt construction of part_001 lines 119-139.  The argument models the
JS value passed in: absent, or a string; `!activity` sends both `none` and
the empty string to the baseline template.  The console logging of the else
branch is not modelled. -/
def getPrompt (activity : Option String) : String :=
  match activity with
  | none => basePrompt
  | some a => if a = "" then basePrompt else extPromptPre ++ a ++ extPromptSuf

/-- Baseline template of server.js lines 27-28, with the line continuation
resolved. -/
def basePromptSrv : String :=
  "Using the provided photo as reference, create an original baby character for the comic strip " ++
  "  \x27Peanuts\x27. They are standing up, the background is white, and they should not have facial hair."

/-- Fixed part of the extended template of server.js lines 30-31 before the
interpolated activity. -/
def extPromptSrvPre : String :=
  "Using the provided photo as reference, create an original baby character for the comic strip \x27Peanuts\x27. They are " ++
  "  standing up, the background is white, and they should not have facial hair. They are doing the following activity: "

/-- Fixed part of the extended template of server.js line 31 after the
interpolated activity. -/
def extPromptSrvSuf : String :=
  "."

/-- Prompt construction of server.js lines 25-33. -/
def getPromptSrv (activity : Option String) : String :=
  match activity with
  | none => basePromptSrv
  | some a => if a = "" then basePromptSrv else extPromptSrvPre ++ a ++ extPromptSrvSuf

/-! ## Data model of the POST /submitMember pipeline (part_001) -/

/-- The multer in-memory upload: `req.file`. -/
structure UploadedFile where
  buffer : List Nat
  originalname : Option String
  mimetype : String
  size : Nat
  deriving DecidableEq, Repr

/-- Multipart body of POST /submitMember in the part_001 schema. -/
structure SubmitRequest where
  firstname : Option String
  lastname : Option String
  email : Option String
  location : Option String
  activity : Option String
  file : Option UploadedFile
  deriving DecidableEq, Repr

/-- The row passed to `supabase.from("community_members").insert`, part_001
lines 310-322. -/
structure MemberRow where
  firstname : String
  lastname : String
  email : String
  location : Option String
  activity : Option String
  image_url : Option String
  original_image_url : Option String
  deriving DecidableEq, Repr

/-- Responses the POST /submitMember handler of part_001 can send: the
success body `res.json({ ok: true })` of line 329, or
`res.status(code).json({ error: msg })`. -/
inductive SubmitResponse where
  | ok : SubmitResponse
  | err : Nat → String → SubmitResponse
  deriving DecidableEq, Repr

/-- Oracle giving the outcome of each external collaborator call the
handler can make during one request: the object-store uploads, the
buffer-to-file conversion, the image-generation call (whose payload may
lack `b64_json`), the record-store insert, the public-URL resolution, and
the two `Date.now()` draws. -/
structure Collab where
  origUpload : Except String Unit
  toFileRes : Except String Unit
  openaiRes : Except String (Option String)
  genUpload : Except String Unit
  publicUrl : String → String
  dbInsert : Except String Unit
  nowOrig : Nat
  nowGen : Nat

/-- Observable outcome of the image-processing stage: the two resolved URL
fields, the object-store paths written to, and the prompts sent to the
image-generation collaborator. -/
structure StageOut where
  imageUrl : Option String
  originalImageUrl : Option String
  storageCalls : List String
  openaiCalls : List String
  deriving DecidableEq, Repr

/-- The image-processing stage of part_001 lines 196-300, entered only when
a file was uploaded.  The original upload error is logged but not thrown
(lines 228-233); every later error is thrown and lands in the catch of line
292, which nulls `imageUrl` only. -/
def imageStage (fn ln : String) (activity : Option String) (c : Collab) : StageOut :=
  let slug := safeNameSlug fn ln
  let origPath := originalFilePath c.nowOrig slug
  let origUrl : Option String :=
    match c.origUpload with
    | .error _ => none
    | .ok _ => some (c.publicUrl origPath)
  match c.toFileRes with
  | .error _ => ⟨none, origUrl, [origPath], []⟩
  | .ok _ =>
    let prompt := getPrompt activity
    match c.openaiRes with
    | .error _ => ⟨none, origUrl, [origPath], [prompt]⟩
    | .ok none => ⟨none, origUrl, [origPath], [prompt]⟩
    | .ok (some _b64) =>
      let genPath := communityFilePath c.nowGen slug
      match c.genUpload with
      | .error _ => ⟨none, origUrl, [origPath, genPath], [prompt]⟩
      | .ok _ => ⟨some (c.publicUrl genPath), origUrl, [origPath, genPath], [prompt]⟩

/-- Observable outcome of one POST /submitMember request: the response sent
and every collaborator call attempted. -/
structure SubmitResult where
  resp : SubmitResponse
  storageCalls : List String
  openaiCalls : List String
  dbCalls : List MemberRow
  deriving Repr

/-- The POST /submitMember handler of part_001 lines 162-337 as a function
of the request body and the collaborator oracle.  Validation short-circuits
with 400 before any collaborator call; a record-store rejection is thrown
to the top-level catch of line 331, every image-stage error is absorbed by
the stage itself. -/
def submitMember (req : SubmitRequest) (c : Collab) : SubmitResult :=
  let firstname := normField req.firstname
  let lastname := normField req.lastname
  let email := normField req.email
  let location := normField req.location
  let activity := normField req.activity
  match firstname, lastname, email with
  | some fn, some ln, some em =>
    let st : StageOut :=
      match req.file with
      | none => ⟨none, none, [], []⟩
      | some _f => imageStage fn ln activity c
    let row : MemberRow :=
      { firstname := fn, lastname := ln, email := em, location := location,
        activity := activity, image_url := st.imageUrl,
        original_image_url := st.originalImageUrl }
    match c.dbInsert with
    | .error _ =>
      { resp := .err 500 "server error while processing submission",
        storageCalls := st.storageCalls, openaiCalls := st.openaiCalls, dbCalls := [row] }
    | .ok _ =>
      { resp := .ok,
        storageCalls := st.storageCalls, openaiCalls := st.openaiCalls, dbCalls := [row] }
  | _, _, _ =>
    { resp := .err 400 "Missing firstname, lastname, or email",
      storageCalls := [], openaiCalls := [], dbCalls := [] }

/-! ## The server.js revision of POST /submitMember -/

/-- Multipart body of POST /submitMember in the server.js schema. -/
structure SubmitRequestSrv where
  name : Option String
  email : Option String
  location : Option String
  activity : Option String
  file : Option UploadedFile
  deriving DecidableEq, Repr

/-- The row passed to insert in server.js line 142:
`{ name, email, image_url }`.  A field that is JS `undefined` is absent
from the row, hence the Options. -/
structure MemberRowSrv where
  name : Option String
  email : Option String
  image_url : Option String
  deriving DecidableEq, Repr

/-- Responses of the server.js handler: the success body of lines 150-156,
`{ ok: true, image: { status, url } }`, or an error body. -/
inductive SubmitResponseSrv where
  | ok : String → Option String → SubmitResponseSrv
  | err : Nat → String → SubmitResponseSrv
  deriving DecidableEq, Repr

/-- Collaborator oracle for one server.js request.  `randId` is the value
of `Math.random().toString(36).slice(2, 6)` from line 104. -/
structure CollabSrv where
  toFileRes : Except String Unit
  openaiRes : Except String (Option String)
  genUpload : Except String Unit
  publicUrl : String → String
  dbInsert : Except String Unit
  randId : String

/-- Observable outcome of one server.js POST /submitMember request. -/
structure SubmitResultSrv where
  resp : SubmitResponseSrv
  storageCalls : List String
  openaiCalls : List String
  dbCalls : List MemberRowSrv
  deriving Repr

/-- The POST /submitMember handler of src/server.js lines 36-162.  This
revision performs no required-field validation: `name` and `email` are only
trimmed (lines 42-43) and the handler proceeds to the image stage and the
record-store insert whatever their values.  Inside the image try block an
absent `name` makes `name.toLowerCase()` (line 103) raise, which the catch
of line 127 absorbs like every other image error. -/
def submitMemberSrv (req : SubmitRequestSrv) (c : CollabSrv) : SubmitResultSrv :=
  let name := req.name.map jsTrim
  let email := req.email.map jsTrim
  let stage : String × Option String × List String × List String :=
    match req.file with
    | none => ("none", none, [], [])
    | some _f =>
      match c.toFileRes with
      | .error _ => ("failed", none, [], [])
      | .ok _ =>
        let activity := req.activity.map jsTrim
        let prompt := getPromptSrv activity
        match c.openaiRes with
        | .error _ => ("failed", none, [], [prompt])
        | .ok none => ("failed", none, [], [prompt])
        | .ok (some _b64) =>
          match name with
          | none => ("failed", none, [], [prompt])
          | some nm =>
            let slug := String.mk (collapseNonAlnum ((jsToLower nm).data))
            let filePath := "community/" ++ slug ++ "-" ++ c.randId ++ ".png"
            match c.genUpload with
            | .error _ => ("failed", none, [filePath], [prompt])
            | .ok _ => ("ready", some (c.publicUrl filePath), [filePath], [prompt])
  let row : MemberRowSrv := { name := name, email := email, image_url := stage.2.1 }
  match c.dbInsert with
  | .error _ =>
    { resp := .err 500 "Internal Server Error.",
      storageCalls := stage.2.2.1, openaiCalls := stage.2.2.2, dbCalls := [row] }
  | .ok _ =>
    { resp := .ok stage.1 stage.2.1,
      storageCalls := stage.2.2.1, openaiCalls := stage.2.2.2, dbCalls := [row] }

/-! ## GET /community (part_001 lines 350-364) -/

/-- A stored row of the `community_members` table: everything the insert
writes, plus the server-assigned primary key and `created_at` timestamp. -/
structure StoredMemberRow where
  id : Nat
  firstname : String
  lastname : String
  email : String
  location : Option String
  activity : Option String
  image_url : Option String
  original_image_url : Option String
  created_at : Nat
  deriving DecidableEq, Repr

/-- The fixed column set selected by part_001 lines 353-355: every member
field and `created_at`, without the primary key. -/
structure MemberProjection where
  firstname : String
  lastname : String
  email : String
  location : Option String
  activity : Option String
  image_url : Option String
  original_image_url : Option String
  created_at : Nat
  deriving DecidableEq, Repr

/-- Column projection of the select string of part_001 lines 353-355. -/
def projectMember (s : StoredMemberRow) : MemberProjection :=
  { firstname := s.firstname, lastname := s.lastname, email := s.email,
    location := s.location, activity := s.activity, image_url := s.image_url,
    original_image_url := s.original_image_url, created_at := s.created_at }

/-- Row order requested from the relational collaborator:
`order("created_at", ascending false)`. -/
def createdDesc (a b : StoredMemberRow) : Prop :=
  b.created_at ≤ a.created_at

instance : DecidableRel createdDesc :=
  fun a b => inferInstanceAs (Decidable (b.created_at ≤ a.created_at))

instance : IsTotal StoredMemberRow createdDesc :=
  ⟨fun a b => Nat.le_total b.created_at a.created_at⟩

instance : IsTrans StoredMemberRow createdDesc :=
  ⟨fun _ _ _ hab hbc => Nat.le_trans hbc hab⟩

/-- Modelled from the spec: the relational data service collaborator, which
"accepts table name + column projection + ordering → row set".  The select
of the fixed columns with descending `created_at` order returns every
stored row, projected, sorted newest first; no range, limit or filter is
requested. -/
def communityQuery (store : List StoredMemberRow) : List MemberProjection :=
  (store.insertionSort createdDesc).map projectMember

/-- Responses of the GET /community handler: the row set as JSON, or
`res.status(500).json({ error: error.message })` from part_001 lines
358-361. -/
inductive CommunityResponse where
  | rows : List MemberProjection → CommunityResponse
  | err : Nat → String → CommunityResponse
  deriving DecidableEq, Repr

/-- The GET /community handler of part_001 lines 350-364 as a function of
the collaborator outcome: the store contents on success, or the failure
message, which the handler returns verbatim in the error body. -/
def getCommunity (dbResult : Except String (List StoredMemberRow)) : CommunityResponse :=
  match dbResult with
  | .error e => .err 500 e
  | .ok store => .rows (communityQuery store)

/-! ## Concrete fixtures used by counterexamples and witnesses -/

/-- A concrete uploaded photo. -/
def adaPhoto : UploadedFile :=
  { buffer := [137, 80, 78, 71], originalname := some "ada.png",
    mimetype := "image/png", size := 4 }

/-- A concrete submission with a photo. -/
def adaReqOne : SubmitRequest :=
  { firstname := some "Ada", lastname := some "Lovelace", email := some "ada@example.com",
    location := none, activity := none, file := some adaPhoto }

/-- A second, distinct submission with the same name fields. -/
def adaReqTwo : SubmitRequest :=
  { adaReqOne with email := some "ada.lovelace@example.org" }

/-- A collaborator oracle in which every call succeeds and both `Date.now()`
draws return the same millisecond. -/
def sameMillisCollab : Collab :=
  { origUpload := .ok (), toFileRes := .ok (), openaiRes := .ok (some "aGVsbG8="),
    genUpload := .ok (),
    publicUrl := fun p => "https://proj.supabase.co/storage/v1/object/public/neighbors/" ++ p,
    dbInsert := .ok (), nowOrig := 1700000000000, nowGen := 1700000000000 }

/-! ## Claim theorems -/

/-- C3: prompt construction is a pure, deterministic, total function of the
optional activity (it is a total Lean function, so every input returns and
equal inputs give byte-identical strings); an absent activity yields the
fixed baseline template, and every non-empty activity string appears
verbatim inside the extended template returned for it. -/
theorem c3_prompt_construction (a : String) (ha : a ≠ "") :
    getPrompt none = basePrompt ∧
    ∃ p q, getPrompt (some a) = p ++ a ++ q ∧ p = extPromptPre ∧ q = extPromptSuf := by
  refine ⟨rfl, extPromptPre, extPromptSuf, ?_, rfl, rfl⟩
  simp [getPrompt, ha]

theorem c3_prompt_construction_witness :
    getPrompt none = basePrompt ∧
    ∃ p q, getPrompt (some "skiing") = p ++ "skiing" ++ q ∧ p = extPromptPre ∧ q = extPromptSuf :=
  c3_prompt_construction "skiing" (by decide)

/-- C10: the prompt function treats the empty string exactly like an absent
activity: any activity that is empty after trimming yields the baseline
template, never the extended template with an empty interpolation; this
holds in the part_001 revision and in the server.js revision alike. -/
theorem c10_empty_activity_is_baseline (s : String) (hs : jsTrim s = "") :
    getPrompt (some (jsTrim s)) = basePrompt ∧
    getPrompt (some (jsTrim s)) = getPrompt none ∧
    getPromptSrv (some (jsTrim s)) = basePromptSrv ∧
    getPromptSrv (some (jsTrim s)) = getPromptSrv none := by
  rw [hs]
  exact ⟨by simp [getPrompt], by simp [getPrompt], by simp [getPromptSrv], by simp [getPromptSrv]⟩

theorem c10_empty_activity_is_baseline_witness :
    getPrompt (some (jsTrim "   ")) = basePrompt ∧
    getPrompt (some (jsTrim "   ")) = getPrompt none ∧
    getPromptSrv (some (jsTrim "   ")) = basePromptSrv ∧
    getPromptSrv (some (jsTrim "   ")) = getPromptSrv none :=
  c10_empty_activity_is_baseline "   " (by decide)

/-- C4 counterexample: the claim that storage paths of two submissions with
identical names never collide is false — two distinct submissions whose
`Date.now()` draws fall in the same millisecond are written to identical,
non-empty storage paths. -/
theorem c4_counterexample :
    adaReqOne ≠ adaReqTwo ∧
    (submitMember adaReqOne sameMillisCollab).storageCalls =
      (submitMember adaReqTwo sameMillisCollab).storageCalls ∧
    (submitMember adaReqOne sameMillisCollab).storageCalls ≠ [] := by
  decide

/-- C4 as amended: the storage path is the URL-safe slug of the name fields
(lowercased, runs of non-alphanumerics collapsed to a single dash) joined
with the `Date.now()` uniqueness token under the `community/` segment for
generated images and the `original_image_url/` segment for originals, and
two submissions with identical names receive distinct paths whenever their
uniqueness tokens differ — the code itself does not make the tokens
distinct. -/
theorem c4_path_construction (firstname lastname : String) (t₁ t₂ u : Nat) (h : t₁ ≠ t₂) :
    (∃ r, communityFilePath u (safeNameSlug firstname lastname) = "community/" ++ r) ∧
    (∃ r, originalFilePath u (safeNameSlug firstname lastname) = "original_image_url/" ++ r) ∧
    (∀ ch ∈ (safeNameSlug firstname lastname).data, ch = '-' ∨ isLowerAlnum ch = true) ∧
    communityFilePath t₁ (safeNameSlug firstname lastname) ≠
      communityFilePath t₂ (safeNameSlug firstname lastname) ∧
    originalFilePath t₁ (safeNameSlug firstname lastname) ≠
      originalFilePath t₂ (safeNameSlug firstname lastname) := by
  refine ⟨⟨decRepr u ++ "-" ++ safeNameSlug firstname lastname ++ ".png", ?_⟩,
    ⟨decRepr u ++ "-" ++ safeNameSlug firstname lastname ++ ".png", ?_⟩, ?_, ?_, ?_⟩
  · simp [communityFilePath, String.append_assoc]
  · simp [originalFilePath, String.append_assoc]
  · exact collapseNonAlnum_chars _
  · exact fun heq => h (token_path_inj "community/" _ heq)
  · exact fun heq => h (token_path_inj "original_image_url/" _ heq)

/-- C1 fixture: a submission whose name is empty after trimming, with no
file attached. -/
def missingNameReqSrv : SubmitRequestSrv :=
  { name := some "   ", email := some "ada@example.com", location := none,
    activity := none, file := none }

/-- C1 fixture: a collaborator oracle in which every call succeeds. -/
def plainCollabSrv : CollabSrv :=
  { toFileRes := .ok (), openaiRes := .ok (some "aGVsbG8="), genUpload := .ok (),
    publicUrl := fun p => "https://proj.supabase.co/storage/v1/object/public/neighbors/" ++ p,
    dbInsert := .ok (), randId := "k3tz" }

/-- C1: the server.js revision of the POST /submitMember handler performs no
required-field validation.  A submission whose name is empty after trimming
is not answered with a 400-class error: the handler proceeds to the
record-store insert (one row written, with an empty name) and reports
success, contradicting the claim, the AGENTS.md validation-first rule, and
the validating sibling revisions. -/
theorem c1_server_js_skips_validation :
    (submitMemberSrv missingNameReqSrv plainCollabSrv).resp = .ok "none" none ∧
    (submitMemberSrv missingNameReqSrv plainCollabSrv).dbCalls =
      [{ name := some "", email := some "ada@example.com", image_url := none }] := by
  decide

/-- C6: GET /community returns all member records projected to the fixed
column set, ordered by `created_at` non-increasing (newest first), with no
pagination and no filtering, and the empty store yields the empty array
rather than an error. -/
theorem c6_listing_sorted_complete (store : List StoredMemberRow) :
    ∃ out, getCommunity (Except.ok store) = .rows out ∧
      out.Sorted (fun a b : MemberProjection => b.created_at ≤ a.created_at) ∧
      out.Perm (store.map projectMember) ∧
      (store = [] → out = []) := by
  refine ⟨communityQuery store, rfl, ?_, ?_, ?_⟩
  · exact List.Pairwise.map projectMember (fun a b hab => hab)
      (List.sorted_insertionSort createdDesc store)
  · exact (List.perm_insertionSort createdDesc store).map projectMember
  · intro h
    rw [h]
    rfl

theorem c6_listing_sorted_complete_witness :
    ∃ out,
      getCommunity (Except.ok
        [⟨1, "Ada", "Lovelace", "ada@example.com", none, none, none, none, 10⟩,
         ⟨2, "Grace", "Hopper", "grace@example.com", none, none, none, none, 20⟩]) = .rows out ∧
      out.Sorted (fun a b : MemberProjection => b.created_at ≤ a.created_at) ∧
      out.Perm (List.map projectMember
        [⟨1, "Ada", "Lovelace", "ada@example.com", none, none, none, none, 10⟩,
         ⟨2, "Grace", "Hopper", "grace@example.com", none, none, none, none, 20⟩]) ∧
      ([⟨1, "Ada", "Lovelace", "ada@example.com", none, none, none, none, 10⟩,
        ⟨2, "Grace", "Hopper", "grace@example.com", none, none, none, none, 20⟩] =
          ([] : List StoredMemberRow) → out = []) :=
  c6_listing_sorted_complete _

/-- C7 counterexample: the claim that every persistence or query failure is
answered with only a generic fixed message is false — the GET /community
handler copies the underlying error message into the 500 body verbatim, so
two different failures produce two different, detail-bearing bodies. -/
theorem c7_counterexample :
    getCommunity (Except.error "connection refused") = .err 500 "connection refused" ∧
    getCommunity (Except.error "permission denied for table community_members") =
      .err 500 "permission denied for table community_members" ∧
    ("connection refused" : String) ≠ "permission denied for table community_members" := by
  refine ⟨rfl, rfl, by decide⟩

/-- C7 as amended: POST /submitMember failures are answered with one of two
fixed generic bodies that never carry the underlying error message, but GET
/community query failures return the underlying error message verbatim in
the 500 body. -/
theorem c7_amended_error_bodies (req : SubmitRequest) (c : Collab) :
    (∀ code msg, (submitMember req c).resp = .err code msg →
      (code = 400 ∧ msg = "Missing firstname, lastname, or email") ∨
      (code = 500 ∧ msg = "server error while processing submission")) ∧
    (∀ m, getCommunity (Except.error m) = .err 500 m) := by
  constructor
  · intro code msg h
    rcases hfn : normField req.firstname with _ | fn <;>
      rcases hln : normField req.lastname with _ | ln <;>
        rcases hem : normField req.email with _ | em <;>
          rcases hdb : c.dbInsert with e | u <;>
            simp only [submitMember, hfn, hln, hem, hdb] at h <;>
              first
              | (injection h with h1 h2; exact Or.inl ⟨h1.symm, h2.symm⟩)
              | (injection h with h1 h2; exact Or.inr ⟨h1.symm, h2.symm⟩)
              | cases h
  · intro m
    rfl

theorem c7_amended_error_bodies_witness :
    (∀ code msg, (submitMember adaReqOne sameMillisCollab).resp = .err code msg →
      (code = 400 ∧ msg = "Missing firstname, lastname, or email") ∨
      (code = 500 ∧ msg = "server error while processing submission")) ∧
    (∀ m, getCommunity (Except.error m) = .err 500 m) :=
  c7_amended_error_bodies adaReqOne sameMillisCollab

theorem c4_path_construction_witness :
    (∃ r, communityFilePath 3 (safeNameSlug "Ada" "Lovelace") = "community/" ++ r) ∧
    (∃ r, originalFilePath 3 (safeNameSlug "Ada" "Lovelace") = "original_image_url/" ++ r) ∧
    (∀ ch ∈ (safeNameSlug "Ada" "Lovelace").data, ch = '-' ∨ isLowerAlnum ch = true) ∧
    communityFilePath 1 (safeNameSlug "Ada" "Lovelace") ≠
      communityFilePath 2 (safeNameSlug "Ada" "Lovelace") ∧
    originalFilePath 1 (safeNameSlug "Ada" "Lovelace") ≠
      originalFilePath 2 (safeNameSlug "Ada" "Lovelace") :=
  c4_path_construction "Ada" "Lovelace" 1 2 3 (by decide)

/-- The part_001 revision does validate: a submission in which any required
field is absent or empty after trimming is answered 400 immediately, with
no storage write, no image-generation call, and no record-store insert. -/
theorem submitMember_validation_short_circuits (req : SubmitRequest) (c : Collab)
    (h : normField req.firstname = none ∨ normField req.lastname = none ∨
      normField req.email = none) :
    (submitMember req c).resp = .err 400 "Missing firstname, lastname, or email" ∧
    (submitMember req c).storageCalls = [] ∧
    (submitMember req c).openaiCalls = [] ∧
    (submitMember req c).dbCalls = [] := by
  rcases hfn : normField req.firstname with _ | fn <;>
    rcases hln : normField req.lastname with _ | ln <;>
      rcases hem : normField req.email with _ | em <;>
        simp_all [submitMember]

/-- C2 and C9 fixture: a collaborator oracle whose image-generation call
fails while everything else succeeds. -/
def failingOpenAICollab : Collab :=
  { sameMillisCollab with openaiRes := .error "ECONNRESET" }

/-- C9 fixture: a collaborator oracle whose original-image upload fails
while everything else succeeds. -/
def failingOrigUploadCollab : Collab :=
  { sameMillisCollab with origUpload := .error "storage quota exceeded" }

/-- C2: for a submission with a photo, an error raised by the
image-generation collaborator, or the absence of image data in its decoded
response, is absorbed inside the image-processing stage and does not abort
the submission: the member record is still inserted, with `image_url` null
and every non-image field unchanged, and the request is reported as a
success. -/
theorem c2_generation_failure_degrades (req : SubmitRequest) (c : Collab)
    (fn ln em : String) (f : UploadedFile)
    (hfn : normField req.firstname = some fn)
    (hln : normField req.lastname = some ln)
    (hem : normField req.email = some em)
    (hfile : req.file = some f)
    (htf : c.toFileRes = Except.ok ())
    (hgen : (∃ e, c.openaiRes = Except.error e) ∨ c.openaiRes = Except.ok none)
    (hdb : c.dbInsert = Except.ok ()) :
    (submitMember req c).resp = .ok ∧
    ∃ row, (submitMember req c).dbCalls = [row] ∧
      row.image_url = none ∧
      row.firstname = fn ∧ row.lastname = ln ∧ row.email = em ∧
      row.location = normField req.location ∧ row.activity = normField req.activity := by
  rcases hgen with ⟨e, he⟩ | he <;>
    rcases horig : c.origUpload with e' | u <;>
      simp [submitMember, imageStage, hfn, hln, hem, hfile, htf, he, hdb, horig]

theorem c2_generation_failure_degrades_witness :
    (submitMember adaReqOne failingOpenAICollab).resp = .ok ∧
    ∃ row, (submitMember adaReqOne failingOpenAICollab).dbCalls = [row] ∧
      row.image_url = none ∧
      row.firstname = "Ada" ∧ row.lastname = "Lovelace" ∧ row.email = "ada@example.com" ∧
      row.location = normField adaReqOne.location ∧
      row.activity = normField adaReqOne.activity :=
  c2_generation_failure_degrades adaReqOne failingOpenAICollab "Ada" "Lovelace"
    "ada@example.com" adaPhoto (by decide) (by decide) (by decide) rfl rfl
    (Or.inl ⟨"ECONNRESET", rfl⟩) rfl

/-- C5: once validation passes, the record-store insert is the one pipeline
stage whose failure is fatal to the request: a rejected insert is answered
with the 500 server error, and when the insert succeeds the request is
reported ok, whatever became of the image steps. -/
theorem c5_db_insert_sole_fatal_stage (req : SubmitRequest) (c : Collab)
    (fn ln em : String)
    (hfn : normField req.firstname = some fn)
    (hln : normField req.lastname = some ln)
    (hem : normField req.email = some em) :
    ((∃ e, c.dbInsert = Except.error e) →
      (submitMember req c).resp = .err 500 "server error while processing submission") ∧
    (c.dbInsert = Except.ok () → (submitMember req c).resp = .ok) := by
  constructor
  · rintro ⟨e, he⟩
    simp [submitMember, hfn, hln, hem, he]
  · intro h
    simp [submitMember, hfn, hln, hem, h]

theorem c5_db_insert_sole_fatal_stage_witness :
    ((∃ e, ({ sameMillisCollab with dbInsert := .error "duplicate key" } : Collab).dbInsert
        = Except.error e) →
      (submitMember adaReqOne { sameMillisCollab with dbInsert := .error "duplicate key" }).resp
        = .err 500 "server error while processing submission") ∧
    (({ sameMillisCollab with dbInsert := .error "duplicate key" } : Collab).dbInsert
        = Except.ok () →
      (submitMember adaReqOne { sameMillisCollab with dbInsert := .error "duplicate key" }).resp
        = .ok) :=
  c5_db_insert_sole_fatal_stage adaReqOne _ "Ada" "Lovelace" "ada@example.com"
    (by decide) (by decide) (by decide)

/-- C8: a valid submission with no file attached whose record-store insert
succeeds is answered with the plain success body (no image field), and the
persisted record carries a null `image_url`; no storage or image-generation
call is made. -/
theorem c8_no_file_success (req : SubmitRequest) (c : Collab)
    (fn ln em : String)
    (hfn : normField req.firstname = some fn)
    (hln : normField req.lastname = some ln)
    (hem : normField req.email = some em)
    (hfile : req.file = none)
    (hdb : c.dbInsert = Except.ok ()) :
    (submitMember req c).resp = .ok ∧
    (submitMember req c).dbCalls =
      [{ firstname := fn, lastname := ln, email := em,
         location := normField req.location, activity := normField req.activity,
         image_url := none, original_image_url := none }] ∧
    (submitMember req c).storageCalls = [] ∧
    (submitMember req c).openaiCalls = [] := by
  simp [submitMember, hfn, hln, hem, hfile, hdb]

theorem c8_no_file_success_witness :
    (submitMember { adaReqOne with file := none } sameMillisCollab).resp = .ok ∧
    (submitMember { adaReqOne with file := none } sameMillisCollab).dbCalls =
      [{ firstname := "Ada", lastname := "Lovelace", email := "ada@example.com",
         location := normField ({ adaReqOne with file := none } : SubmitRequest).location,
         activity := normField ({ adaReqOne with file := none } : SubmitRequest).activity,
         image_url := none, original_image_url := none }] ∧
    (submitMember { adaReqOne with file := none } sameMillisCollab).storageCalls = [] ∧
    (submitMember { adaReqOne with file := none } sameMillisCollab).openaiCalls = [] :=
  c8_no_file_success _ _ "Ada" "Lovelace" "ada@example.com"
    (by decide) (by decide) (by decide) rfl rfl

/-- C9: original-image storage and generated-image storage fail
independently.  When the original upload fails, the failure is only
recorded and the pipeline continues — a fully successful remainder still
resolves the generated image URL; and when the original upload succeeded, a
later failure anywhere in the image stage nulls only `image_url` while the
persisted row keeps the resolved `original_image_url`. -/
theorem c9_original_generated_independent (req : SubmitRequest) (c : Collab)
    (fn ln em : String) (f : UploadedFile)
    (hfn : normField req.firstname = some fn)
    (hln : normField req.lastname = some ln)
    (hem : normField req.email = some em)
    (hfile : req.file = some f) :
    ((∃ e, c.origUpload = Except.error e) → c.toFileRes = Except.ok () →
      (∀ b64, c.openaiRes = Except.ok (some b64) → c.genUpload = Except.ok () →
        ∃ row, (submitMember req c).dbCalls = [row] ∧
          row.original_image_url = none ∧
          row.image_url = some (c.publicUrl (communityFilePath c.nowGen (safeNameSlug fn ln))) ∧
          (c.dbInsert = Except.ok () → (submitMember req c).resp = .ok))) ∧
    (c.origUpload = Except.ok () →
      ((∃ e, c.toFileRes = Except.error e) ∨ (∃ e, c.openaiRes = Except.error e) ∨
        c.openaiRes = Except.ok none ∨
        (c.toFileRes = Except.ok () ∧ (∃ b64, c.openaiRes = Except.ok (some b64)) ∧
          (∃ e, c.genUpload = Except.error e))) →
      ∃ row, (submitMember req c).dbCalls = [row] ∧
        row.original_image_url =
          some (c.publicUrl (originalFilePath c.nowOrig (safeNameSlug fn ln))) ∧
        row.image_url = none ∧
        (c.dbInsert = Except.ok () → (submitMember req c).resp = .ok)) := by
  constructor
  · rintro ⟨e, he⟩ htf b64 hoai hgen
    rcases hdb : c.dbInsert with e' | u <;>
      simp [submitMember, imageStage, hfn, hln, hem, hfile, he, htf, hoai, hgen, hdb]
  · rintro horig (⟨e, he⟩ | ⟨e, he⟩ | he | ⟨htf, ⟨b64, hoai⟩, e, hgen⟩) <;>
      rcases hdb : c.dbInsert with e' | u
    · simp [submitMember, imageStage, hfn, hln, hem, hfile, horig, he, hdb]
    · simp [submitMember, imageStage, hfn, hln, hem, hfile, horig, he, hdb]
    · rcases htf : c.toFileRes with e2 | u2 <;>
        simp [submitMember, imageStage, hfn, hln, hem, hfile, horig, he, htf, hdb]
    · rcases htf : c.toFileRes with e2 | u2 <;>
        simp [submitMember, imageStage, hfn, hln, hem, hfile, horig, he, htf, hdb]
    · rcases htf : c.toFileRes with e2 | u2 <;>
        simp [submitMember, imageStage, hfn, hln, hem, hfile, horig, he, htf, hdb]
    · rcases htf : c.toFileRes with e2 | u2 <;>
        simp [submitMember, imageStage, hfn, hln, hem, hfile, horig, he, htf, hdb]
    · simp [submitMember, imageStage, hfn, hln, hem, hfile, horig, htf, hoai, hgen, hdb]
    · simp [submitMember, imageStage, hfn, hln, hem, hfile, horig, htf, hoai, hgen, hdb]

theorem c9_original_generated_independent_witness :
    ((∃ e, failingOrigUploadCollab.origUpload = Except.error e) →
      failingOrigUploadCollab.toFileRes = Except.ok () →
      (∀ b64, failingOrigUploadCollab.openaiRes = Except.ok (some b64) →
        failingOrigUploadCollab.genUpload = Except.ok () →
        ∃ row, (submitMember adaReqOne failingOrigUploadCollab).dbCalls = [row] ∧
          row.original_image_url = none ∧
          row.image_url = some (failingOrigUploadCollab.publicUrl
            (communityFilePath failingOrigUploadCollab.nowGen (safeNameSlug "Ada" "Lovelace"))) ∧
          (failingOrigUploadCollab.dbInsert = Except.ok () →
            (submitMember adaReqOne failingOrigUploadCollab).resp = .ok))) ∧
    (failingOrigUploadCollab.origUpload = Except.ok () →
      ((∃ e, failingOrigUploadCollab.toFileRes = Except.error e) ∨
        (∃ e, failingOrigUploadCollab.openaiRes = Except.error e) ∨
        failingOrigUploadCollab.openaiRes = Except.ok none ∨
        (failingOrigUploadCollab.toFileRes = Except.ok () ∧
          (∃ b64, failingOrigUploadCollab.openaiRes = Except.ok (some b64)) ∧
          (∃ e, failingOrigUploadCollab.genUpload = Except.error e))) →
      ∃ row, (submitMember adaReqOne failingOrigUploadCollab).dbCalls = [row] ∧
        row.original_image_url = some (failingOrigUploadCollab.publicUrl
          (originalFilePath failingOrigUploadCollab.nowOrig (safeNameSlug "Ada" "Lovelace"))) ∧
        row.image_url = none ∧
        (failingOrigUploadCollab.dbInsert = Except.ok () →
          (submitMember adaReqOne failingOrigUploadCollab).resp = .ok)) :=
  c9_original_generated_independent adaReqOne failingOrigUploadCollab
    "Ada" "Lovelace" "ada@example.com" adaPhoto (by decide) (by decide) (by decide) rfl

end Neighbor
